import Mathlib

/-!
# Verification of the order-pricing and order-capture workflow

Shallow embedding of the `POST /api/orders` and `PATCH /api/orders/:id/status`
handlers of the e-commerce backend (`src/index.js`, with the earlier variant in
`src/unnamed/part_000`).  JavaScript numbers are modelled as exact rationals
(`ℚ`); the source performs only `+`, `*` and comparisons on them, and the spec
fixes "plain sum, no rounding" semantics.  JavaScript strings are modelled as
`String`, with all character-level operations implemented over `List Char` so
that every definition evaluates by kernel reduction.  Request fields that may
be `undefined`, `null`, a number or a string are modelled by the small dynamic
type `JsValue`; fields that the handler only ever treats as present-or-absent
strings are modelled as `Option String` (where `none` covers both `undefined`
and `null`, which the handler never distinguishes).
-/

namespace KayesBackend

/-- A JavaScript value as it can appear in the request-body fields the order
handler reads dynamically (`quantity`, `deliveryCharge`, client price/total).
`num` carries an exact rational; the model has no NaN/Infinity literals (NaN
arises only as a failed string parse, represented by `Option`). -/
inductive JsValue where
  | undefined : JsValue
  | null : JsValue
  | num : ℚ → JsValue
  | str : String → JsValue
deriving DecidableEq

/-- JavaScript truthiness of a `JsValue` (`undefined`, `null`, `0` and `""`
are falsy; the model carries no NaN literal). -/
def jsTruthy : JsValue → Bool
  | JsValue.undefined => false
  | JsValue.null => false
  | JsValue.num q => q != 0
  | JsValue.str s => !s.toList.isEmpty

/-- Truthiness of an optional string field (`none` models `undefined`/`null`;
the empty string is falsy). -/
def truthyStr : Option String → Bool
  | none => false
  | some s => !s.toList.isEmpty

/-- JavaScript whitespace stripped by `Number(string)` conversion (the common
ASCII subset; exotic Unicode space code points are not modelled). -/
def isJsSpace (c : Char) : Bool :=
  c = ' ' || c = '\t' || c = '\n' || c = '\r'

/-- Trim on the character-list level (leading and trailing whitespace). -/
def trimChars (cs : List Char) : List Char :=
  ((cs.dropWhile isJsSpace).reverse.dropWhile isJsSpace).reverse

/-- Numeric value of a digit string, most significant digit first. -/
def digitsVal (cs : List Char) : ℕ :=
  cs.foldl (fun a c => 10 * a + (c.toNat - 48)) 0

/-- Parse an unsigned decimal literal `digits [ "." digits ]` (also `".d"` and
`"d."` as JavaScript accepts) into a numerator/denominator pair; `none` models
NaN.  Exponent, hex and `Infinity` forms are not modelled (no claim exercises
them). -/
def parsePair (cs : List Char) : Option (ℕ × ℕ) :=
  let intPart := cs.takeWhile Char.isDigit
  match cs.drop intPart.length with
  | [] => if intPart.isEmpty then none else some (digitsVal intPart, 1)
  | '.' :: frac =>
    if frac.all Char.isDigit && !(intPart.isEmpty && frac.isEmpty) then
      some (digitsVal intPart * 10 ^ frac.length + digitsVal frac, 10 ^ frac.length)
    else none
  | _ => none

/-- JavaScript `Number(string)`: trim whitespace, `""` gives `0`, optional
sign followed by a decimal literal; anything else is NaN (`none`).  The value
is assembled with `mkRat`, the normalized rational num/den constructor. -/
def jsStringToNumber (s : String) : Option ℚ :=
  match trimChars s.toList with
  | [] => some 0
  | '-' :: rest => (parsePair rest).map (fun p => mkRat (-(p.1 : ℤ)) p.2)
  | '+' :: rest => (parsePair rest).map (fun p => mkRat p.1 p.2)
  | cs => (parsePair cs).map (fun p => mkRat p.1 p.2)

/-- Exact rational multiplication, written with `mkRat` over num/den so that
every concrete run evaluates by kernel reduction; `qMul_eq` below proves it
is the multiplication of `ℚ`. -/
def qMul (a b : ℚ) : ℚ := mkRat (a.num * b.num) (a.den * b.den)

/-- Exact rational addition via `mkRat`; `qAdd_eq` proves it is `ℚ`
addition. -/
def qAdd (a b : ℚ) : ℚ :=
  mkRat (a.num * (b.den : ℤ) + b.num * (a.den : ℤ)) (a.den * b.den)

/-- JavaScript `Number(v)` on the modelled value space; `none` models NaN. -/
def jsToNumber : JsValue → Option ℚ
  | JsValue.undefined => none
  | JsValue.null => some 0
  | JsValue.num q => some q
  | JsValue.str s => jsStringToNumber s

/-- `Number(p.quantity ?? 1) || 1` — the quantity normalization of the order
handler (src/index.js line 360): nullish values default to 1 before
conversion, and a NaN or zero conversion result falls back to 1. -/
def normQty (v : JsValue) : ℚ :=
  let afterNullish : JsValue :=
    match v with
    | JsValue.undefined => JsValue.num 1
    | JsValue.null => JsValue.num 1
    | x => x
  match jsToNumber afterNullish with
  | none => 1
  | some q => if q = 0 then 1 else q

/-- `dc || 0` then `Number(_)` — the delivery-charge conversion
(`Number(deliveryCharge || 0)`, src/index.js line 387); `none` models NaN. -/
def deliveryChargeValue (dc : JsValue) : Option ℚ :=
  if jsTruthy dc then jsToNumber dc else some 0

/-- Character class of the `validator.isNumeric` regex body. -/
def numericBody (cs : List Char) : Bool :=
  let ds := cs.takeWhile Char.isDigit
  match cs.drop ds.length with
  | [] => !ds.isEmpty
  | '.' :: frac => !frac.isEmpty && frac.all Char.isDigit
  | _ => false

/-- `validator.isNumeric` on a string: `[+-]?([0-9]*[.])?[0-9]+`. -/
def isNumericStr (s : String) : Bool :=
  !s.toList.isEmpty &&
    (match s.toList with
     | '+' :: rest => numericBody rest
     | '-' :: rest => numericBody rest
     | cs => numericBody cs)

/-- The `body("deliveryCharge").optional().isNumeric()` validator of
src/index.js: `undefined` is skipped by `optional()`; any other value is
stringified and must match the numeric regex (`null` stringifies to a
non-numeric form and fails). -/
def deliveryChargeOk : JsValue → Bool
  | JsValue.undefined => true
  | JsValue.null => false
  | JsValue.num _ => true
  | JsValue.str s => isNumericStr s

/-- Hexadecimal digit (both cases), as accepted by a MongoDB ObjectId. -/
def isHexChar (c : Char) : Bool :=
  c.isDigit || ('a' ≤ c && c ≤ 'f') || ('A' ≤ c && c ≤ 'F')

/-- `mongoose.Types.ObjectId.isValid` on a string: a 24-character hex string,
or any 12-character string (interpreted as 12 raw bytes). -/
def isValidObjectId (s : String) : Bool :=
  s.toList.length == 12 || (s.toList.length == 24 && s.toList.all isHexChar)

/-- JavaScript `String.prototype.trim` (ASCII whitespace subset). -/
def jsTrim (s : String) : String :=
  String.mk (trimChars s.toList)

/- ----------------- Data model ----------------- -/

/-- A Product document as the Catalog Store returns it.  `priceAfterDiscount`
is `none` when the field is unset (the handler's `typeof … === "number"`
test fails exactly then); a present value may be any number at runtime, which
is why the handler re-checks `>= 0`. -/
structure Product where
  id : String
  title : String
  code : String
  price : ℚ
  priceAfterDiscount : Option ℚ
  imageUrl : Option String
  categories : List String
  sizes : List String
deriving DecidableEq

/-- The Catalog Store: `findById`, a point-in-time read-only lookup. -/
def Catalog : Type := String → Option Product

/-- One client-submitted cart line of the `POST /api/orders` body.  `price` is
the client-supplied price field, which the handler must ignore. -/
structure CartLine where
  productId : Option String
  quantity : JsValue
  size : Option String
  color : Option String
  imageUrl : Option String
  category : Option String
  price : JsValue
  customFields : Option (List (String × String))
deriving DecidableEq

/-- One persisted order line-item (the `detailed.push({...})` snapshot of
src/index.js lines 363–374). -/
structure LineItem where
  productId : String
  title : String
  code : String
  price : ℚ
  quantity : ℚ
  size : Option String
  color : String
  imageUrl : String
  category : Option String
  customFields : List (String × String)
deriving DecidableEq

/-- The `POST /api/orders` request body.  `totalValue` and `status` are
client-supplied fields the handler never destructures. -/
structure OrderRequest where
  products : Option (List CartLine)
  customerName : Option String
  phone : Option String
  division : Option String
  district : Option String
  upazila : Option String
  address : Option String
  color : Option String
  deliveryCharge : JsValue
  totalValue : JsValue
  status : Option String
  customFields : Option (List (String × String))
deriving DecidableEq

/-- A persisted Order document (creation timestamp not modelled). -/
structure Order where
  products : List LineItem
  customerName : Option String
  phone : Option String
  division : Option String
  district : Option String
  upazila : Option String
  address : Option String
  color : String
  totalValue : ℚ
  deliveryCharge : ℚ
  status : String
  customFields : List (String × String)
deriving DecidableEq

/-- The status enum of the Order schema. -/
def ORDER_STATUSES : List String :=
  ["pending", "processing", "delivered", "cancelled"]

/- ----------------- Order Pricing Engine ----------------- -/

/-- Errors the order-creation handler can report.  `validationFailed` is the
express-validator 400 response (carrying its message list),
`saveValidationFailed` is a mongoose schema-validation failure thrown by
`order.save()`. -/
inductive OrderError where
  | validationFailed : List String → OrderError
  | invalidProductId : Option String → OrderError
  | productNotFound : String → OrderError
  | saveValidationFailed : OrderError
deriving DecidableEq

/-- How a productId renders inside a template literal (`${pid}`). -/
def pidText : Option String → String
  | none => "undefined"
  | some s => s

/-- The `message` field of the JSON error response. -/
def OrderError.message : OrderError → String
  | OrderError.validationFailed _ => "Validation failed"
  | OrderError.invalidProductId pid => "Invalid productId: " ++ pidText pid
  | OrderError.productNotFound pid => "Product " ++ pid ++ " not found"
  | OrderError.saveValidationFailed => "Order validation failed"

/-- `e` names the identifier `pid`: its message contains `pid` verbatim. -/
def namesId (e : OrderError) (pid : String) : Prop :=
  ∃ pre post, e.message = pre ++ pid ++ post

/-- The authoritative unit price (src/index.js lines 355–359): the Product's
`priceAfterDiscount` when it is a number `≥ 0`, else the Product's `price`. -/
def unitPrice (prod : Product) : ℚ :=
  match prod.priceAfterDiscount with
  | some pad => if 0 ≤ pad then pad else prod.price
  | none => prod.price

/-- Per-line resolution (src/index.js lines 346–354): reject a falsy or
syntactically invalid `productId`, then look the Product up; a missing
Product is an error naming the id. -/
def resolveLine (catalog : Catalog) (l : CartLine) : Except OrderError Product :=
  match l.productId with
  | none => Except.error (OrderError.invalidProductId none)
  | some pid =>
    if pid.toList.isEmpty || !isValidObjectId pid then
      Except.error (OrderError.invalidProductId (some pid))
    else
      match catalog pid with
      | none => Except.error (OrderError.productNotFound pid)
      | some prod => Except.ok prod

/-- The Catalog Store reads (`Product.findById` calls) a line causes: one
lookup exactly when the id passes the syntactic check. -/
def lineLookups (l : CartLine) : List String :=
  match l.productId with
  | none => []
  | some pid =>
    if pid.toList.isEmpty || !isValidObjectId pid then [] else [pid]

/-- The line-item snapshot pushed for a resolved line (src/index.js lines
363–374): title/code/price from the Product, quantity normalized, `size` kept
only when truthy, `color` trimmed with `""` default, `imageUrl` by truthiness
precedence cart-then-product-then-`""`, `category` by truthiness precedence
cart-then-first-product-category-then-absent. -/
def mkLineItem (prod : Product) (l : CartLine) : LineItem :=
  { productId := prod.id
    title := prod.title
    code := prod.code
    price := unitPrice prod
    quantity := normQty l.quantity
    size := if truthyStr l.size then l.size else none
    color := jsTrim (l.color.getD "")
    imageUrl :=
      if truthyStr l.imageUrl then l.imageUrl.getD ""
      else if truthyStr prod.imageUrl then prod.imageUrl.getD ""
      else ""
    category :=
      if truthyStr l.category then l.category
      else
        match prod.categories.head? with
        | some c => if c.toList.isEmpty then none else some c
        | none => none
    customFields := l.customFields.getD [] }

/-- The pricing loop (`for (const p of products) { … }`), returning the
Catalog Store lookup log alongside either the first line's error or the
snapshot list and the accumulated `productTotal`. -/
def runLines (catalog : Catalog) :
    List CartLine → List String × Except OrderError (List LineItem × ℚ)
  | [] => ([], Except.ok ([], 0))
  | l :: rest =>
    match resolveLine catalog l with
    | Except.error e => (lineLookups l, Except.error e)
    | Except.ok prod =>
      match runLines catalog rest with
      | (log, Except.error e) => (lineLookups l ++ log, Except.error e)
      | (log, Except.ok (items, total)) =>
        (lineLookups l ++ log,
         Except.ok (mkLineItem prod l :: items,
                    qAdd (qMul (unitPrice prod) (normQty l.quantity)) total))

/-- `body("products").isArray({ min: 1 })`: present, an array, non-empty. -/
def productsArrayMin1 : Option (List CartLine) → Bool
  | none => false
  | some ls => !ls.isEmpty

/-- The express-validator error messages for the `POST /api/orders`
validators, in declaration order. -/
def validationMsgs (req : OrderRequest) : List String :=
  (if productsArrayMin1 req.products then [] else ["Products are required"]) ++
    (if deliveryChargeOk req.deliveryCharge then [] else ["Invalid value"])

/-- The Order constructed after all lines succeed (src/index.js lines
377–389): `status` is not passed and takes the schema default `"pending"`;
the mongoose `trim: true` setters apply to the customer fields. -/
def mkOrder (req : OrderRequest) (items : List LineItem) (total : ℚ) : Order :=
  { products := items
    customerName := req.customerName.map jsTrim
    phone := req.phone.map jsTrim
    division := req.division.map jsTrim
    district := req.district.map jsTrim
    upazila := req.upazila.map jsTrim
    address := req.address
    color := jsTrim (req.color.getD "")
    totalValue := total
    deliveryCharge := (deliveryChargeValue req.deliveryCharge).getD 0
    status := "pending"
    customFields := req.customFields.getD [] }

/-- The mongoose schema validation run by `order.save()`: `totalValue ≥ 0`,
`deliveryCharge ≥ 0`, `status` in the enum, each line quantity `≥ 1`. -/
def orderValid (o : Order) : Bool :=
  decide (0 ≤ o.totalValue) && decide (0 ≤ o.deliveryCharge) &&
    ORDER_STATUSES.contains o.status &&
    o.products.all (fun i => decide (1 ≤ i.quantity))

/-- The full `POST /api/orders` handler: express-validator first, then the
pricing loop, then construction and `save()`.  The first component is the
list of Catalog Store lookups performed, in order. -/
def createOrderRun (catalog : Catalog) (req : OrderRequest) :
    List String × Except OrderError Order :=
  if validationMsgs req = [] then
    match runLines catalog (req.products.getD []) with
    | (log, Except.error e) => (log, Except.error e)
    | (log, Except.ok (items, total)) =>
      let o := mkOrder req items total
      if orderValid o then (log, Except.ok o)
      else (log, Except.error OrderError.saveValidationFailed)
  else ([], Except.error (OrderError.validationFailed (validationMsgs req)))

/-- The handler's result alone. -/
def createOrder (catalog : Catalog) (req : OrderRequest) : Except OrderError Order :=
  (createOrderRun catalog req).2

/-- The cart lines of a request (empty when the field is absent). -/
def cartLines (req : OrderRequest) : List CartLine :=
  req.products.getD []

/-- The Order Store after serving a creation request against `store`: the
single `order.save()` appends exactly when the handler succeeds. -/
def ordersAfter (store : List Order) (catalog : Catalog) (req : OrderRequest) :
    List Order :=
  match createOrder catalog req with
  | Except.ok o => store ++ [o]
  | Except.error _ => store

/-- The contribution of one cart line to `productTotal`: resolved unit price
times normalized quantity (0 for a line that does not resolve — under a
successful run every line resolves). -/
def lineAmount (catalog : Catalog) (l : CartLine) : ℚ :=
  match resolveLine catalog l with
  | Except.ok prod => unitPrice prod * normQty l.quantity
  | Except.error _ => 0

/-- The snapshot a cart line yields, when it resolves. -/
def snapshotLine (catalog : Catalog) (l : CartLine) : Option LineItem :=
  match resolveLine catalog l with
  | Except.ok prod => some (mkLineItem prod l)
  | Except.error _ => none

/-- The error a failing cart line produces (the default arm is never reached
when the line actually fails to resolve). -/
def lineError (catalog : Catalog) (l : CartLine) : OrderError :=
  match resolveLine catalog l with
  | Except.error e => e
  | Except.ok _ => OrderError.saveValidationFailed

/-- `true` on a successful `Except` result. -/
def isOkB {ε α : Type} : Except ε α → Bool
  | Except.ok _ => true
  | Except.error _ => false

deriving instance DecidableEq for Except

/-- Erase the client-supplied price field of a cart line. -/
def CartLine.erasePrice (l : CartLine) : CartLine :=
  { l with price := JsValue.undefined }

/-- Erase every client-supplied price field and the client-supplied total of
a request; two requests with equal erasures differ only in those fields. -/
def eraseClientPrices (req : OrderRequest) : OrderRequest :=
  { req with
    products := req.products.map (fun ls => ls.map CartLine.erasePrice)
    totalValue := JsValue.undefined }

/- ----------------- Order Status Transition ----------------- -/

/-- Errors of the `PATCH /api/orders/:id/status` handler. -/
inductive StatusError where
  | invalidStatus : StatusError
  | invalidOrderId : StatusError
  | orderNotFound : StatusError
deriving DecidableEq

/-- The Order Store keyed by document id. -/
def OrderStore : Type := List (String × Order)

/-- `Order.findById` over the keyed store. -/
def lookupOrder (store : OrderStore) (oid : String) : Option Order :=
  (store.find? (fun p => p.1 == oid)).map (fun p => p.2)

/-- `body("status").isIn([...])`: an absent status fails like any value
outside the enum. -/
def statusAllowed : Option String → Bool
  | none => false
  | some s => ORDER_STATUSES.contains s

/-- The `PATCH /api/orders/:id/status` handler of src/index.js lines 426–446:
express-validator `isIn` first, then the id syntax check, then the lookup;
on success the stored order's status is replaced and saved. -/
def setStatus (store : OrderStore) (oid : String) (newStatus : Option String) :
    OrderStore × Except StatusError Order :=
  if !statusAllowed newStatus then
    (store, Except.error StatusError.invalidStatus)
  else if !isValidObjectId oid then
    (store, Except.error StatusError.invalidOrderId)
  else
    match lookupOrder store oid with
    | none => (store, Except.error StatusError.orderNotFound)
    | some o =>
      let o2 : Order := { o with status := newStatus.getD o.status }
      (store.map (fun p => if p.1 == oid then (p.1, o2) else p), Except.ok o2)

/- ----------------- Concrete fixtures (for witnesses) ----------------- -/

/-- A valid 24-hex-character product id. -/
def pidA : String := "aaaaaaaaaaaaaaaaaaaaaaaa"

/-- A second valid product id. -/
def pidB : String := "bbbbbbbbbbbbbbbbbbbbbbbb"

/-- A valid id present in no catalog below. -/
def pidMissing : String := "cccccccccccccccccccccccc"

/-- A discounted product: `price` 100, `priceAfterDiscount` 80. -/
def prodA : Product :=
  { id := pidA, title := "Tee", code := "T1", price := 100,
    priceAfterDiscount := some 80, imageUrl := some "a.jpg",
    categories := ["Jewellery"], sizes := ["S"] }

/-- An undiscounted product: `price` 50, no `priceAfterDiscount`. -/
def prodB : Product :=
  { id := pidB, title := "Cap", code := "C1", price := 50,
    priceAfterDiscount := none, imageUrl := none,
    categories := [], sizes := [] }

/-- A two-product catalog. -/
def demoCatalog : Catalog := fun pid =>
  if pid = pidA then some prodA else if pid = pidB then some prodB else none

/-- A cart line with no overrides. -/
def plainLine (pid : String) (qty : JsValue) : CartLine :=
  { productId := some pid, quantity := qty, size := none, color := none,
    imageUrl := none, category := none, price := JsValue.undefined,
    customFields := none }

/-- A request with the given cart and otherwise minimal fields. -/
def plainReq (lines : List CartLine) : OrderRequest :=
  { products := some lines, customerName := none, phone := none,
    division := none, district := none, upazila := none, address := none,
    color := none, deliveryCharge := JsValue.undefined,
    totalValue := JsValue.undefined, status := none, customFields := none }

/-- The snapshot `prodA` yields for a plain line of quantity `q`. -/
def itemA (q : ℚ) : LineItem :=
  { productId := pidA, title := "Tee", code := "T1", price := 80, quantity := q,
    size := none, color := "", imageUrl := "a.jpg", category := some "Jewellery",
    customFields := [] }

/-- The snapshot `prodB` yields for a plain line of quantity `q`. -/
def itemB (q : ℚ) : LineItem :=
  { productId := pidB, title := "Cap", code := "C1", price := 50, quantity := q,
    size := none, color := "", imageUrl := "", category := none,
    customFields := [] }

/-- An order with the given line-items and total and minimal other fields. -/
def plainOrder (items : List LineItem) (total : ℚ) : Order :=
  { products := items, customerName := none, phone := none, division := none,
    district := none, upazila := none, address := none, color := "",
    totalValue := total, deliveryCharge := 0, status := "pending",
    customFields := [] }

/-- Two-line request: quantity 2 of `prodA`, quantity absent for `prodB`. -/
def reqW1 : OrderRequest :=
  plainReq [plainLine pidA (JsValue.num 2), plainLine pidB JsValue.undefined]

/-- The order `reqW1` creates. -/
def ordW1 : Order := plainOrder [itemA 2, itemB 1] 210

/-- Single-line request for `prodA`. -/
def lineW2 : CartLine := plainLine pidA (JsValue.num 1)

/-- Request holding `lineW2`. -/
def reqW2 : OrderRequest := plainReq [lineW2]

/-- The order `reqW2` creates. -/
def ordW2 : Order := plainOrder [itemA 1] 80

/-- Two requests identical except for client price/total fields. -/
def reqW3a : OrderRequest :=
  { plainReq [{ plainLine pidA (JsValue.num 2) with price := JsValue.num 1 }] with
    totalValue := JsValue.num 5 }

/-- The second run, with different client price and total fields. -/
def reqW3b : OrderRequest :=
  { plainReq [{ plainLine pidA (JsValue.num 2) with price := JsValue.num 999999 }] with
    totalValue := JsValue.num 0 }

/-- The order both `reqW3a` and `reqW3b` create. -/
def ordW3 : Order := plainOrder [itemA 2] 160

/-- A line whose productId is valid syntax but matches no Product. -/
def lineW4bad : CartLine := plainLine pidMissing (JsValue.num 1)

/-- Multi-line request whose second line does not resolve. -/
def reqW4 : OrderRequest := plainReq [plainLine pidA (JsValue.num 1), lineW4bad]

/-- An empty-cart request. -/
def reqW7 : OrderRequest := plainReq []

/-- Request with a string deliveryCharge and a client-supplied status. -/
def reqW9 : OrderRequest :=
  { plainReq [plainLine pidA (JsValue.num 1)] with
    deliveryCharge := JsValue.str "10", status := some "delivered" }

/-- The order `reqW9` creates. -/
def ordW9 : Order := { plainOrder [itemA 1] 80 with deliveryCharge := 10 }

/-- A line with a present-but-empty category override. -/
def lineC8 : CartLine :=
  { plainLine pidA (JsValue.num 1) with category := some "" }

/-- Request holding `lineC8`. -/
def reqC8 : OrderRequest := plainReq [lineC8]

/-- Lines with present-but-empty imageUrl overrides. -/
def lineW10a : CartLine :=
  { plainLine pidA (JsValue.num 1) with imageUrl := some "" }

/-- Second imageUrl line, against the product with no imageUrl. -/
def lineW10b : CartLine :=
  { plainLine pidB (JsValue.num 2) with imageUrl := some "" }

/-- Request holding the two imageUrl lines. -/
def reqW10 : OrderRequest := plainReq [lineW10a, lineW10b]

/-- The order `reqW10` creates. -/
def ordW10 : Order := plainOrder [itemA 1, itemB 2] 180

/- ----------------- Helper lemmas ----------------- -/

theorem qMul_eq (a b : ℚ) : qMul a b = a * b := by
  rw [qMul, Rat.mkRat_eq_div, Rat.mul_def]
  push_cast
  rw [Rat.normalize_eq_mkRat, Rat.mkRat_eq_div]
  push_cast
  rfl

theorem qAdd_eq (a b : ℚ) : qAdd a b = a + b := by
  rw [qAdd, Rat.mkRat_eq_div, Rat.add_def, Rat.normalize_eq_mkRat, Rat.mkRat_eq_div]

/-- A successful pricing loop returns exactly the sum of the per-line
amounts and the pointwise snapshots of the resolved lines. -/
theorem runLines_ok_spec (catalog : Catalog) :
    ∀ (ls : List CartLine) (log : List String) (items : List LineItem) (total : ℚ),
      runLines catalog ls = (log, Except.ok (items, total)) →
      total = (ls.map (lineAmount catalog)).sum ∧
      items.map (fun i => (some i : Option LineItem)) = ls.map (snapshotLine catalog) := by
  intro ls
  induction ls with
  | nil =>
    intro log items total h
    simp only [runLines, Prod.mk.injEq, Except.ok.injEq] at h
    obtain ⟨-, h2, h3⟩ := h
    subst h2; subst h3
    simp
  | cons l rest ih =>
    intro log items total h
    simp only [runLines] at h
    cases hres : resolveLine catalog l with
    | error e => rw [hres] at h; simp at h
    | ok prod =>
      rw [hres] at h
      cases hrec : runLines catalog rest with
      | mk log2 res2 =>
        rw [hrec] at h
        cases res2 with
        | error e => simp at h
        | ok pr =>
          cases pr with
          | mk items2 total2 =>
            simp only [Prod.mk.injEq, Except.ok.injEq] at h
            obtain ⟨-, hitems, htotal⟩ := h
            obtain ⟨ihTot, ihSnap⟩ := ih log2 items2 total2 hrec
            constructor
            · subst htotal
              rw [qAdd_eq, qMul_eq, ihTot]
              simp [lineAmount, hres]
            · subst hitems
              simp only [List.map_cons, ihSnap]
              simp [snapshotLine, hres]

/-- Decomposition of a successful `createOrder` run. -/
theorem createOrder_ok_decomp (catalog : Catalog) (req : OrderRequest) (order : Order)
    (h : createOrder catalog req = Except.ok order) :
    validationMsgs req = [] ∧
    ∃ log items total,
      runLines catalog (cartLines req) = (log, Except.ok (items, total)) ∧
      orderValid (mkOrder req items total) = true ∧
      order = mkOrder req items total := by
  unfold createOrder createOrderRun at h
  by_cases hv : validationMsgs req = []
  · rw [if_pos hv] at h
    refine ⟨hv, ?_⟩
    cases hrun : runLines catalog (req.products.getD []) with
    | mk log res =>
      rw [hrun] at h
      cases res with
      | error e => simp at h
      | ok pr =>
        cases pr with
        | mk items total =>
          by_cases hov : orderValid (mkOrder req items total) = true
          · simp only [hov, if_true] at h
            simp only [Except.ok.injEq] at h
            exact ⟨log, items, total, hrun, hov, h.symm⟩
          · simp only [Bool.not_eq_true] at hov
            simp [hov] at h
  · rw [if_neg hv] at h
    simp at h

/-- The `k`-th stored line-item of a successfully created order is the
snapshot of the `k`-th cart line with its resolved product. -/
theorem createOrder_item (catalog : Catalog) (req : OrderRequest) (order : Order)
    (k : ℕ) (l : CartLine) (prod : Product)
    (h : createOrder catalog req = Except.ok order)
    (hl : (cartLines req)[k]? = some l)
    (hres : resolveLine catalog l = Except.ok prod) :
    order.products[k]? = some (mkLineItem prod l) := by
  obtain ⟨-, log, items, total, hrun, -, horder⟩ := createOrder_ok_decomp catalog req order h
  have hsnap := (runLines_ok_spec catalog (cartLines req) log items total hrun).2
  have hpt : (items.map (fun i => (some i : Option LineItem)))[k]? =
      ((cartLines req).map (snapshotLine catalog))[k]? := by rw [hsnap]
  rw [List.getElem?_map, List.getElem?_map, hl] at hpt
  simp only [Option.map_some', snapshotLine, hres] at hpt
  have hprods : order.products = items := by rw [horder]; rfl
  rw [hprods]
  cases hit : items[k]? with
  | none => rw [hit] at hpt; simp at hpt
  | some it =>
    rw [hit] at hpt
    simp only [Option.map_some', Option.some.injEq] at hpt
    rw [hpt]

/-- Erasing the ignored client price fields does not change per-line
resolution, lookups or snapshots, hence not the pricing loop. -/
theorem runLines_erase (catalog : Catalog) :
    ∀ ls : List CartLine,
      runLines catalog (ls.map CartLine.erasePrice) = runLines catalog ls := by
  intro ls
  induction ls with
  | nil => rfl
  | cons l rest ih =>
    simp only [List.map_cons, runLines]
    have h1 : resolveLine catalog (CartLine.erasePrice l) = resolveLine catalog l := rfl
    rw [h1, ih]
    cases resolveLine catalog l with
    | error e => rfl
    | ok prod =>
      cases runLines catalog rest with
      | mk log res =>
        cases res with
        | error e => rfl
        | ok pr => rfl

/-- Erasure preserves the cart shape. -/
theorem cartLines_erase (req : OrderRequest) :
    cartLines (eraseClientPrices req) = (cartLines req).map CartLine.erasePrice := by
  unfold cartLines eraseClientPrices
  cases req.products with
  | none => rfl
  | some ls => rfl

/-- Erasure preserves the express-validator outcome. -/
theorem validationMsgs_erase (req : OrderRequest) :
    validationMsgs (eraseClientPrices req) = validationMsgs req := by
  unfold validationMsgs eraseClientPrices productsArrayMin1
  cases req.products with
  | none => rfl
  | some ls => cases ls with
    | nil => rfl
    | cons l rest => rfl

/-- Erasure preserves the constructed order. -/
theorem mkOrder_erase (req : OrderRequest) (items : List LineItem) (total : ℚ) :
    mkOrder (eraseClientPrices req) items total = mkOrder req items total := rfl

/-- The handler computes the same run on a request with erased client price
fields: those fields are never read. -/
theorem createOrderRun_erase (catalog : Catalog) (req : OrderRequest) :
    createOrderRun catalog (eraseClientPrices req) = createOrderRun catalog req := by
  unfold createOrderRun
  rw [validationMsgs_erase]
  by_cases hv : validationMsgs req = []
  · rw [if_pos hv, if_pos hv]
    have hlines : (eraseClientPrices req).products.getD [] =
        ((req.products.getD []).map CartLine.erasePrice) := cartLines_erase req
    rw [hlines, runLines_erase]
    cases runLines catalog (req.products.getD []) with
    | mk log res =>
      cases res with
      | error e => rfl
      | ok pr =>
        cases pr with
        | mk items total => simp only [mkOrder_erase]
  · rw [if_neg hv, if_neg hv]

/-- The pricing loop fails with the first bad line's own error. -/
theorem runLines_firstBad (catalog : Catalog) :
    ∀ (ls : List CartLine) (l : CartLine),
      ls.find? (fun x => !isOkB (resolveLine catalog x)) = some l →
      ∃ log e, runLines catalog ls = (log, Except.error e) ∧
        resolveLine catalog l = Except.error e := by
  intro ls
  induction ls with
  | nil => intro l h; simp at h
  | cons x rest ih =>
    intro l h
    rw [List.find?_cons] at h
    cases hres : resolveLine catalog x with
    | error e =>
      simp only [hres, isOkB, Bool.not_false] at h
      obtain rfl : x = l := by injection h
      exact ⟨lineLookups x, e, by simp [runLines, hres], hres⟩
    | ok prod =>
      simp only [hres, isOkB, Bool.not_true] at h
      obtain ⟨log, e, hrun, hres2⟩ := ih l h
      refine ⟨lineLookups x ++ log, e, ?_, hres2⟩
      simp only [runLines, hres, hrun]

/-- Case equation: resolution of a line with an absent/null productId. -/
theorem resolveLine_none (catalog : Catalog) (l : CartLine)
    (hp : l.productId = none) :
    resolveLine catalog l = Except.error (OrderError.invalidProductId none) := by
  unfold resolveLine
  rw [hp]

/-- Case equation: resolution of a line with a present productId string. -/
theorem resolveLine_some (catalog : Catalog) (l : CartLine) (pid : String)
    (hp : l.productId = some pid) :
    resolveLine catalog l =
      (if pid.toList.isEmpty || !isValidObjectId pid then
        Except.error (OrderError.invalidProductId (some pid))
      else
        match catalog pid with
        | none => Except.error (OrderError.productNotFound pid)
        | some prod => Except.ok prod) := by
  unfold resolveLine
  rw [hp]

/-- A failed resolution reports an error whose message names the offending
id exactly as the template literal renders it. -/
theorem resolveLine_error_names (catalog : Catalog) (l : CartLine) (e : OrderError)
    (h : resolveLine catalog l = Except.error e) :
    namesId e (pidText l.productId) := by
  cases hp : l.productId with
  | none =>
    rw [resolveLine_none catalog l hp] at h
    obtain rfl : OrderError.invalidProductId none = e := by injection h
    refine ⟨"Invalid productId: ", "", ?_⟩
    simp [OrderError.message, pidText]
  | some pid =>
    rw [resolveLine_some catalog l pid hp] at h
    by_cases hv : (pid.toList.isEmpty || !isValidObjectId pid) = true
    · rw [if_pos hv] at h
      obtain rfl : OrderError.invalidProductId (some pid) = e := by injection h
      refine ⟨"Invalid productId: ", "", ?_⟩
      simp [OrderError.message, pidText]
    · rw [if_neg hv] at h
      cases hc : catalog pid with
      | none =>
        rw [hc] at h
        simp only [Except.error.injEq] at h
        subst h
        exact ⟨"Product ", " not found", rfl⟩
      | some prod => rw [hc] at h; simp at h

/- ----------------- Claim theorems ----------------- -/

/-- C1: for every cart with at least one valid line, the created Order's
`totalValue` equals the sum over all lines of (server-resolved unit price ×
normalized quantity); `lineAmount` is built from the catalog, the productId
and the quantity only, so no client-supplied price or total contributes
(the non-interference itself is C3's theorem). -/
theorem c1_totalValue (catalog : Catalog) (req : OrderRequest) (order : Order)
    (h : createOrder catalog req = Except.ok order) :
    order.totalValue = ((cartLines req).map (lineAmount catalog)).sum := by
  obtain ⟨-, log, items, total, hrun, -, horder⟩ := createOrder_ok_decomp catalog req order h
  have htot := (runLines_ok_spec catalog (cartLines req) log items total hrun).1
  rw [horder]
  exact htot

/-- C1 witness: a two-line cart (quantity 2 at resolved price 80, defaulted
quantity 1 at resolved price 50) totals 210. -/
theorem c1_totalValue_witness :
    createOrder demoCatalog reqW1 = Except.ok ordW1 ∧
    ordW1.totalValue = ((cartLines reqW1).map (lineAmount demoCatalog)).sum :=
  ⟨by decide, c1_totalValue demoCatalog reqW1 ordW1 (by decide)⟩

/-- C2: the stored price of every line-item of a successfully created order
equals the resolved Product's `priceAfterDiscount` when present and ≥ 0, and
the Product's `price` otherwise. -/
theorem c2_unitPrice (catalog : Catalog) (req : OrderRequest) (order : Order)
    (k : ℕ) (l : CartLine) (prod : Product)
    (h : createOrder catalog req = Except.ok order)
    (hl : (cartLines req)[k]? = some l)
    (hres : resolveLine catalog l = Except.ok prod) :
    (order.products[k]?).map LineItem.price =
      some (match prod.priceAfterDiscount with
            | some pad => if 0 ≤ pad then pad else prod.price
            | none => prod.price) := by
  rw [createOrder_item catalog req order k l prod h hl hres]
  rfl

/-- C2 witness: the discounted product (price 100, priceAfterDiscount 80)
is stored at price 80. -/
theorem c2_unitPrice_witness :
    (ordW2.products[0]?).map LineItem.price = some 80 :=
  (c2_unitPrice demoCatalog reqW2 ordW2 0 lineW2 prodA
    (by decide) (by decide) (by decide)).trans (by decide)

/-- C3: from a fixed catalog, two order-creation requests that differ only in
client-supplied price fields (per-line `price`, top-level total) produce
identical stored line prices and an identical `totalValue`. -/
theorem c3_priceNoninterference (catalog : Catalog) (r1 r2 : OrderRequest)
    (o1 o2 : Order)
    (hagree : eraseClientPrices r1 = eraseClientPrices r2)
    (h1 : createOrder catalog r1 = Except.ok o1)
    (h2 : createOrder catalog r2 = Except.ok o2) :
    o1.products.map LineItem.price = o2.products.map LineItem.price ∧
    o1.totalValue = o2.totalValue := by
  have e : createOrder catalog r1 = createOrder catalog r2 := by
    unfold createOrder
    rw [← createOrderRun_erase catalog r1, hagree, createOrderRun_erase]
  rw [h1, h2] at e
  obtain rfl : o1 = o2 := by injection e
  exact ⟨rfl, rfl⟩

/-- C3 witness: client price 1 and client price 999999 on the same cart give
the same stored order. -/
theorem c3_priceNoninterference_witness :
    createOrder demoCatalog reqW3a = Except.ok ordW3 ∧
    createOrder demoCatalog reqW3b = Except.ok ordW3 ∧
    (ordW3.products.map LineItem.price = ordW3.products.map LineItem.price ∧
      ordW3.totalValue = ordW3.totalValue) :=
  ⟨by decide, by decide,
   c3_priceNoninterference demoCatalog reqW3a reqW3b ordW3 ordW3
     (by decide) (by decide) (by decide)⟩

/-- C4: if any line of the cart has an invalid or unresolvable productId,
order creation fails with the first such line's error, whose message names
that line's id, and the Order Store is unchanged (all-or-nothing).  The
`deliveryChargeOk` hypothesis excludes the earlier express-validator 400,
which also persists nothing but reports a generic validation message. -/
theorem c4_abortOnBadLine (catalog : Catalog) (store : List Order)
    (req : OrderRequest) (lines : List CartLine) (l : CartLine)
    (hprod : req.products = some lines)
    (hdc : deliveryChargeOk req.deliveryCharge = true)
    (hfind : lines.find? (fun x => !isOkB (resolveLine catalog x)) = some l) :
    createOrder catalog req = Except.error (lineError catalog l) ∧
    namesId (lineError catalog l) (pidText l.productId) ∧
    ordersAfter store catalog req = store := by
  have hne : lines ≠ [] := by
    intro hnil; rw [hnil] at hfind; simp at hfind
  have hval : validationMsgs req = [] := by
    unfold validationMsgs productsArrayMin1
    rw [hprod, hdc]
    cases lines with
    | nil => exact absurd rfl hne
    | cons a b => simp
  obtain ⟨log, e, hrun, hres⟩ := runLines_firstBad catalog lines l hfind
  have herr : lineError catalog l = e := by unfold lineError; rw [hres]
  have hcl : req.products.getD [] = lines := by rw [hprod]; rfl
  have hco : createOrder catalog req = Except.error e := by
    unfold createOrder createOrderRun
    rw [if_pos hval, hcl, hrun]
  refine ⟨by rw [herr]; exact hco, ?_, ?_⟩
  · rw [herr]; exact resolveLine_error_names catalog l e hres
  · unfold ordersAfter
    rw [hco]

/-- C4 witness: a two-line cart whose second product id resolves to nothing
aborts with that id's error and leaves an empty Order Store empty. -/
theorem c4_abortOnBadLine_witness :
    createOrder demoCatalog reqW4 = Except.error (lineError demoCatalog lineW4bad) ∧
    ordersAfter [] demoCatalog reqW4 = [] :=
  ⟨(c4_abortOnBadLine demoCatalog [] reqW4
      [plainLine pidA (JsValue.num 1), lineW4bad] lineW4bad
      (by decide) (by decide) (by decide)).1,
   (c4_abortOnBadLine demoCatalog [] reqW4
      [plainLine pidA (JsValue.num 1), lineW4bad] lineW4bad
      (by decide) (by decide) (by decide)).2.2⟩

/-- C7: an empty or absent products array is rejected with the validation
error message "Products are required" while the Catalog Store lookup log is
empty: no lookup is performed. -/
theorem c7_emptyCart (catalog : Catalog) (req : OrderRequest)
    (hempty : req.products = none ∨ req.products = some []) :
    createOrderRun catalog req =
      ([], Except.error (OrderError.validationFailed (validationMsgs req))) ∧
    "Products are required" ∈ validationMsgs req := by
  have hpm : productsArrayMin1 req.products = false := by
    rcases hempty with h | h <;> rw [h] <;> rfl
  have hmem : "Products are required" ∈ validationMsgs req := by
    unfold validationMsgs
    rw [hpm]
    simp
  have hne : ¬ validationMsgs req = [] := by
    intro hc; rw [hc] at hmem; simp at hmem
  refine ⟨?_, hmem⟩
  unfold createOrderRun
  rw [if_neg hne]

/-- C7 witness: `products: []` is rejected with no catalog lookup. -/
theorem c7_emptyCart_witness :
    createOrderRun demoCatalog reqW7 =
      ([], Except.error (OrderError.validationFailed (validationMsgs reqW7))) ∧
    "Products are required" ∈ validationMsgs reqW7 :=
  c7_emptyCart demoCatalog reqW7 (Or.inr (by decide))

/-- C9: every successfully created Order has status "pending" — whatever
status the request body carries — and deliveryCharge equal to the parsed
numeric input, or 0 when the field is absent. -/
theorem c9_statusAndDelivery (catalog : Catalog) (req : OrderRequest)
    (order : Order)
    (h : createOrder catalog req = Except.ok order) :
    order.status = "pending" ∧
    order.deliveryCharge =
      (match req.deliveryCharge with
       | JsValue.undefined => 0
       | dc => (jsToNumber dc).getD 0) := by
  obtain ⟨hval, log, items, total, hrun, -, horder⟩ := createOrder_ok_decomp catalog req order h
  have hdc : deliveryChargeOk req.deliveryCharge = true := by
    by_contra hc
    rw [Bool.not_eq_true] at hc
    unfold validationMsgs at hval
    rw [hc] at hval
    simp at hval
  subst horder
  refine ⟨rfl, ?_⟩
  show (deliveryChargeValue req.deliveryCharge).getD 0 = _
  cases hv : req.deliveryCharge with
  | undefined => rfl
  | null => rw [hv] at hdc; exact absurd hdc (by decide)
  | num q =>
    by_cases hq : q = 0
    · subst hq; simp [deliveryChargeValue, jsTruthy, jsToNumber]
    · simp [deliveryChargeValue, jsTruthy, jsToNumber, hq]
  | str s =>
    rw [hv] at hdc
    have hne : s.toList.isEmpty = false := by
      cases he : s.toList.isEmpty
      · rfl
      · exfalso
        have hfalse : deliveryChargeOk (JsValue.str s) = false := by
          show isNumericStr s = false
          unfold isNumericStr
          rw [he]
          rfl
        rw [hfalse] at hdc
        exact absurd hdc (by decide)
    have hne2 : s.data ≠ [] := by
      intro hc
      have : s.toList.isEmpty = true := by
        show s.data.isEmpty = true
        rw [hc]
        rfl
      rw [this] at hne
      exact absurd hne (by decide)
    simp [deliveryChargeValue, jsTruthy, jsToNumber, hne, hne2]

/-- C9 witness: a request with `status: "delivered"` and `deliveryCharge:
"10"` creates an order with status "pending" and deliveryCharge 10. -/
theorem c9_statusAndDelivery_witness :
    createOrder demoCatalog reqW9 = Except.ok ordW9 ∧
    (ordW9.status = "pending" ∧
      ordW9.deliveryCharge =
        (match reqW9.deliveryCharge with
         | JsValue.undefined => 0
         | dc => (jsToNumber dc).getD 0)) :=
  ⟨by decide, c9_statusAndDelivery demoCatalog reqW9 ordW9 (by decide)⟩

/-- C6: the status-transition handler rejects, with the store untouched,
every newStatus outside {pending, processing, delivered, cancelled}, and
fails with the not-found error on an unknown (but syntactically valid)
orderId. -/
theorem c6_setStatus :
    (∀ (store : OrderStore) (oid : String) (s : Option String),
        statusAllowed s = false →
        setStatus store oid s = (store, Except.error StatusError.invalidStatus)) ∧
    (∀ (store : OrderStore) (oid : String) (v : String),
        statusAllowed (some v) = true → isValidObjectId oid = true →
        lookupOrder store oid = none →
        setStatus store oid (some v) = (store, Except.error StatusError.orderNotFound)) := by
  constructor
  · intro store oid s hs
    simp [setStatus, hs]
  · intro store oid v hs hoid hlook
    simp [setStatus, hs, hoid, hlook]

/-- C6 witness: "shipped" is rejected with the store unchanged; a valid
status on an id absent from the store reports not-found. -/
theorem c6_setStatus_witness :
    setStatus [] pidA (some "shipped") =
      ([], Except.error StatusError.invalidStatus) ∧
    setStatus [] pidA (some "processing") =
      ([], Except.error StatusError.orderNotFound) :=
  ⟨c6_setStatus.1 [] pidA (some "shipped") (by decide),
   c6_setStatus.2 [] pidA "processing" (by decide) (by decide) (by decide)⟩

/-- C5 counterexample: the claim "the normalized quantity is an integer ≥ 1"
fails — `Number(-2) || 1` keeps `-2`, which is below 1 (and fractional
values such as 2.5 pass through likewise). -/
theorem c5_counterexample :
    normQty (JsValue.num (-2)) = -2 ∧
    ¬ ((1 : ℚ) ≤ normQty (JsValue.num (-2))) := by
  have h : normQty (JsValue.num (-2)) = -2 := by
    show (if (-2 : ℚ) = 0 then 1 else -2) = -2
    norm_num
  refine ⟨h, ?_⟩
  rw [h]
  norm_num

/-- C5 as amended: quantity 0, a non-numeric string, null and an absent
quantity all normalize to 1, and any nonzero numeric quantity (3, but also
negative or fractional values) is kept as-is; the result is a number, not
necessarily an integer ≥ 1. -/
theorem c5_quantityNormalization :
    normQty JsValue.undefined = 1 ∧
    normQty JsValue.null = 1 ∧
    normQty (JsValue.num 0) = 1 ∧
    normQty (JsValue.str "abc") = 1 ∧
    normQty (JsValue.num 3) = 3 ∧
    (∀ q : ℚ, q ≠ 0 → normQty (JsValue.num q) = q) ∧
    (∀ s : String, jsStringToNumber s = none → normQty (JsValue.str s) = 1) := by
  refine ⟨rfl, rfl, ?_, by decide, ?_, ?_, ?_⟩
  · show (if (0 : ℚ) = 0 then 1 else 0) = 1
    norm_num
  · show (if (3 : ℚ) = 0 then 1 else 3) = 3
    norm_num
  · intro q hq
    show (if q = 0 then 1 else q) = q
    rw [if_neg hq]
  · intro s hs
    simp only [normQty, jsToNumber]
    rw [hs]

/-- C5 witness: a nonzero numeric quantity 7 is kept, a non-numeric string
normalizes to 1. -/
theorem c5_quantityNormalization_witness :
    normQty (JsValue.num 7) = 7 ∧ normQty (JsValue.str "xyz") = 1 :=
  ⟨c5_quantityNormalization.2.2.2.2.2.1 7 (by norm_num),
   c5_quantityNormalization.2.2.2.2.2.2 "xyz" (by decide)⟩

/-- C8 counterexample: the claim "category is the cart line's override when
present" fails for a present-but-empty override — `p.category || …` tests
truthiness, so `category: ""` falls through to the product's first
category. -/
theorem c8_counterexample :
    lineC8.category = some "" ∧
    (createOrder demoCatalog reqC8).map
        (fun o => o.products.map LineItem.category) =
      Except.ok [some "Jewellery"] ∧
    (some "Jewellery" : Option String) ≠ some "" := by
  refine ⟨rfl, by decide, by decide⟩

/-- C8 as amended: the snapshot's category is the cart line's override when
that is a non-empty (truthy) string, else the resolved Product's first
category when that is non-empty, else absent. -/
theorem c8_category (catalog : Catalog) (req : OrderRequest) (order : Order)
    (k : ℕ) (l : CartLine) (prod : Product)
    (h : createOrder catalog req = Except.ok order)
    (hl : (cartLines req)[k]? = some l)
    (hres : resolveLine catalog l = Except.ok prod) :
    (order.products[k]?).map LineItem.category =
      some (if truthyStr l.category then l.category
            else
              match prod.categories.head? with
              | some c => if c.toList.isEmpty then none else some c
              | none => none) := by
  rw [createOrder_item catalog req order k l prod h hl hres]
  rfl

/-- C8 witness: the empty override on a product with first category
"Jewellery" stores "Jewellery". -/
theorem c8_category_witness :
    (ordW2.products[0]?).map LineItem.category =
      some (if truthyStr lineC8.category then lineC8.category
            else
              match prodA.categories.head? with
              | some c => if c.toList.isEmpty then none else some c
              | none => none) :=
  c8_category demoCatalog reqC8 ordW2 0 lineC8 prodA
    (by decide) (by decide) (by decide)

/-- C10: when neither the cart line nor the resolved Product supplies a
truthy imageUrl, the stored line-item's imageUrl is the empty string (a
string, never absent — the field of the snapshot is always set); and a
present-but-empty cart imageUrl falls through to the product's imageUrl,
because `p.imageUrl || prod.imageUrl || ""` tests truthiness. -/
theorem c10_imageUrl (catalog : Catalog) (req : OrderRequest) (order : Order)
    (k : ℕ) (l : CartLine) (prod : Product)
    (h : createOrder catalog req = Except.ok order)
    (hl : (cartLines req)[k]? = some l)
    (hres : resolveLine catalog l = Except.ok prod) :
    ((truthyStr l.imageUrl = false ∧ truthyStr prod.imageUrl = false) →
        (order.products[k]?).map LineItem.imageUrl = some "") ∧
    (l.imageUrl = some "" → truthyStr prod.imageUrl = true →
        (order.products[k]?).map LineItem.imageUrl =
          some (prod.imageUrl.getD "")) := by
  rw [createOrder_item catalog req order k l prod h hl hres]
  constructor
  · rintro ⟨hl1, hp1⟩
    simp [mkLineItem, hl1, hp1]
  · intro hle hp1
    have hl1 : truthyStr l.imageUrl = false := by rw [hle]; rfl
    simp [mkLineItem, hl1, hp1]

/-- C10 witness: `imageUrl: ""` against a product with an image stores the
product's image; against a product without one it stores `""`. -/
theorem c10_imageUrl_witness :
    (ordW10.products[0]?).map LineItem.imageUrl = some (prodA.imageUrl.getD "") ∧
    (ordW10.products[1]?).map LineItem.imageUrl = some "" :=
  ⟨(c10_imageUrl demoCatalog reqW10 ordW10 0 lineW10a prodA
      (by decide) (by decide) (by decide)).2 rfl (by decide),
   (c10_imageUrl demoCatalog reqW10 ordW10 1 lineW10b prodB
      (by decide) (by decide) (by decide)).1 ⟨by decide, by decide⟩⟩

end KayesBackend
